import Mathlib

/-!
# Shallow embedding of mpy-workbench (VS Code MicroPython extension)

This file embeds the parts of the TypeScript sources that the verified
claims are about:

* `src/syncView.ts` — the `SerialMonitor` class (passive serial polling
  with a busy/suspend protocol) and the `SyncTree.getActionNodes`
  auto-sync label computation;
* `src/pyraw.ts` — `listDirPyRaw`, the board filesystem listing
  operation delegated to a Python subprocess;
* `src/pythonInterpreter.ts` — `PythonInterpreterManager.getPythonPath`,
  interpreter discovery with caching and fallbacks.

External collaborators (the VS Code configuration store, the filesystem,
`child_process` execution, the environment's `JSON.parse`) are modelled
as explicit inputs: each embedded function receives the values the
TypeScript code would read from them at that call, mirroring the fact
that the source re-reads them on every invocation.  JavaScript strings
are `String`, JavaScript `undefined`/absent values are `Option`,
promise rejection is `Except.error`.
-/

namespace MpyWorkbench

/-! ## JSON values as seen by the listing callback

`listDirPyRaw`'s callback only ever asks `Array.isArray` of the value
returned by the environment's `JSON.parse`; element shapes are never
inspected.  So a JSON value is modelled as either an array of values or
any other value. `JSON.parse` itself is a host builtin and is passed in
as a function `String → Option Js` (`none` models a parse exception). -/

inductive Js where
  | arr (elems : List Js)
  | other
deriving Repr

/-! ## src/pyraw.ts -/

/-- `cfg.get("microPythonWorkBench.connect", "auto") || "auto"`
(pyraw.ts line 8): the configured value with default `"auto"`, and the
JavaScript `||` turning the falsy empty string into `"auto"` as well.
`none` models an unset configuration entry. -/
def connectValue (cfg : Option String) : String :=
  let got := cfg.getD "auto"
  if got = "" then "auto" else got

/-- `connect.replace(/^serial:\/\//, "").replace(/^serial:\//, "")`
(pyraw.ts line 10): strip a leading `serial://`, then a leading
`serial:/`, each at most once and only at the start. -/
def stripSerialScheme (s : String) : String :=
  let s1 := if s.startsWith "serial://" then s.drop 9 else s
  if s1.startsWith "serial:/" then s1.drop 8 else s1

/-- One `execFile` invocation: executable, argument vector, timeout in
milliseconds (pyraw.ts line 18). -/
structure ExecCall where
  file : String
  args : List String
  timeoutMs : Nat
deriving Repr, DecidableEq

/-- Outcome of an `execFile` invocation as delivered to its callback:
`err` is `some message` on subprocess failure (non-zero exit or
timeout), and `stdout`/`stderr` are the captured text streams. -/
structure ExecResult where
  err : Option String
  stdout : String
  stderr : String
deriving Repr

/-- The callback body of `listDirPyRaw` (pyraw.ts lines 18–27):

* on subprocess error, reject with `new Error(stderr || err.message)`;
* otherwise `JSON.parse(String(stdout || "[]"))`; an array resolves as
  the listing, a parse exception or a non-array value resolves `[]`.

`parse` is the environment's `JSON.parse`. -/
def listDirCallback (parse : String → Option Js) (r : ExecResult) :
    Except String (List Js) :=
  match r.err with
  | some msg => Except.error (if r.stderr = "" then msg else r.stderr)
  | none =>
    match parse (if r.stdout = "" then "[]" else r.stdout) with
    | some (Js.arr xs) => Except.ok xs
    | _ => Except.ok []

/-- The argument vector built at pyraw.ts line 18:
`[script, "--port", device, "--baudrate", "115200", "--path", dirPath]`.
The baud rate is the string literal `"115200"` in the source. -/
def listDirArgs (script device dirPath : String) : List String :=
  [script, "--port", device, "--baudrate", "115200", "--path", dirPath]

/-- `listDirPyRaw` (pyraw.ts lines 6–29).  Inputs: the configured
`microPythonWorkBench.connect` value (`none` = unset), the resolved
Python interpreter path, the helper script path, the requested board
directory, the subprocess executor and the environment's `JSON.parse`.
Returns the settled promise value together with the list of subprocess
invocations the call issued (empty when it threw before spawning). -/
def listDirPyRaw (cfg : Option String) (pythonPath script dirPath : String)
    (run : ExecCall → ExecResult) (parse : String → Option Js) :
    Except String (List Js) × List ExecCall :=
  let connect := connectValue cfg
  if connect = "auto" then
    (Except.error "No fixed serial port selected", [])
  else
    let device := stripSerialScheme connect
    let call : ExecCall :=
      { file := pythonPath, args := listDirArgs script device dirPath,
        timeoutMs := 10000 }
    (listDirCallback parse (run call), [call])

/-! ## src/syncView.ts — SerialMonitor

The class fields `timer`, `busy`, `running`, `out` (lines 67–70) become
a record; `timer : Bool` records whether a pending (not yet fired)
timeout exists, `out : Bool` whether the output channel was created.
The constants `intervalMs` and `windowMs` (lines 71–72) are fixed.

`tick` is `async`: it is split at its suspension point into the
synchronous entry `tick` (guard, configuration read, spawn decision,
lines 105–112) and the post-`await` tail `tickFinish` (line 126), which
runs against whatever state holds once the reader subprocess closed.
Likewise `suspendDuring` is split around `await fn()`: `suspendDuring`
composes the entry (lines 89–90), the awaited `fn` — modelled as a
state transformer returning `Except`, so a throwing `fn` is
`Except.error` — and the `finally` block `suspendFinally`
(lines 93–96). -/

structure MonitorState where
  timer : Bool
  busy : Bool
  running : Bool
  out : Bool
deriving Repr, DecidableEq

def intervalMs : Nat := 2000
def windowMs : Nat := 400

namespace SerialMonitor

/-- `schedule` (syncView.ts lines 99–103): bail out unless running and
not busy; otherwise clear any pending timeout and arm a new one. -/
def schedule (s : MonitorState) : MonitorState :=
  if ¬ s.running ∨ s.busy then s
  else { s with timer := true }

/-- `start` (syncView.ts lines 74–79): no-op when already running;
otherwise create the output channel if needed, mark running and
schedule the first poll. -/
def start (s : MonitorState) : MonitorState :=
  if s.running then s
  else schedule { s with out := true, running := true }

/-- `stop` (syncView.ts lines 81–84): mark not running and clear the
pending timeout. -/
def stop (s : MonitorState) : MonitorState :=
  { s with running := false, timer := false }

/-- `isRunning` (syncView.ts line 86). -/
def isRunning (s : MonitorState) : Bool :=
  s.running

/-- The `spawn` argument vector built in `tick` (syncView.ts lines
107–110): the configured connect value (default `"auto"`, `(connect
|| '')` keeping an explicit empty string empty), scheme-stripped, then
`["-m", "serial.tools.miniterm", device, "115200", "--eol", "LF"]`. -/
def tickSpawnArgs (cfg : Option String) : List String :=
  let connect := cfg.getD "auto"
  let device := stripSerialScheme connect
  ["-m", "serial.tools.miniterm", device, "115200", "--eol", "LF"]

/-- Entry of `tick` up to spawning the reader (syncView.ts lines
105–112).  The pending timeout has just fired, so it is consumed; if
the monitor is stopped or busy the tick returns immediately (`none`:
no subprocess spawned, nothing read, nothing rescheduled); otherwise
the configuration is read now and the reader subprocess is spawned
with `tickSpawnArgs` (`some args`). -/
def tick (cfg : Option String) (s : MonitorState) :
    MonitorState × Option (List String) :=
  let s0 : MonitorState := { s with timer := false }
  if ¬ s0.running ∨ s0.busy then (s0, none)
  else (s0, some (tickSpawnArgs cfg))

/-- Tail of `tick` after the reader subprocess closed (syncView.ts line
126): reschedule only when still running and not busy. -/
def tickFinish (s : MonitorState) : MonitorState :=
  if s.running ∧ ¬ s.busy then schedule s else s

/-- The `finally` block of `suspendDuring` (syncView.ts lines 93–96):
clear the busy flag, and reschedule polling when the monitor was
running before the suspension began. -/
def suspendFinally (wasRunning : Bool) (s : MonitorState) : MonitorState :=
  let s1 : MonitorState := { s with busy := false }
  if wasRunning then schedule s1 else s1

/-- `suspendDuring` (syncView.ts lines 88–97): remember whether the
monitor was running, raise the busy flag, run `fn` (a state
transformer whose `Except.error` result models a thrown exception —
the `finally` block runs either way), then `suspendFinally`. -/
def suspendDuring {ε α : Type} (s : MonitorState)
    (fn : MonitorState → MonitorState × Except ε α) :
    MonitorState × Except ε α :=
  let wasRunning := s.running
  let r := fn { s with busy := true }
  (suspendFinally wasRunning r.1, r.2)

end SerialMonitor

/-! ## src/syncView.ts — SyncTree.getActionNodes auto-sync label -/

/-- Shape of the `autoSyncOnSave` field of the parsed
`.mpy-workbench/config.json` record. -/
inductive FieldVal where
  | missing
  | nonBool
  | boolVal (b : Bool)
deriving Repr, DecidableEq

/-- State of the workspace's `.mpy-workbench/config.json` as observed
by one `getActionNodes` call: the file does not exist (`existsSync`
false, so the record is `{}`), it exists but reading/parsing throws,
or it parses to a record whose `autoSyncOnSave` field has the given
shape. -/
inductive ConfigFileState where
  | absentFile
  | malformed
  | record (autoSyncOnSave : FieldVal)
deriving Repr, DecidableEq

/-- The two `enabled`-dependent labels (syncView.ts line 48). -/
def labelFor (enabled : Bool) : String :=
  if enabled then "AutoSync: ON (click to disable)"
  else "AutoSync: OFF (click to enable)"

/-- The label computation of `getActionNodes` (syncView.ts lines
36–50), one invocation: `ws` is the workspace's config-file state
(`none` = no workspace folder), `setting` the
`microPythonWorkBench.autoSyncOnSave` VS Code setting (`none` =
unset, read with default `false`).  The `try`/`catch {}` leaves the
initial label in place when there is no workspace or reading throws;
a boolean `autoSyncOnSave` field wins, anything else falls back to the
setting. -/
def autoSyncLabel (ws : Option ConfigFileState) (setting : Option Bool) :
    String :=
  match ws with
  | none => "Toggle AutoSync"
  | some ConfigFileState.malformed => "Toggle AutoSync"
  | some ConfigFileState.absentFile => labelFor (setting.getD false)
  | some (ConfigFileState.record f) =>
    match f with
    | FieldVal.boolVal b => labelFor b
    | _ => labelFor (setting.getD false)

/-! ## src/pythonInterpreter.ts — PythonInterpreterManager.getPythonPath

The static mutable fields `cachedInterpreter`/`lastCacheTime` become an
explicit `PyCache` state threaded through the call.  The two discovery
methods (`getPythonFromExtensionAPI`, `getPythonFromConfiguration`) are
environment probes; each `getPythonPath` call observes their outcome as
`Except String (Option String)`: `Except.error` models a thrown
exception (caught by the surrounding `try`/`catch` in `getPythonPath`),
`Except.ok none` a `null` return, `Except.ok (some p)` a returned path.
`validatePythonPath` catches internally and always returns a record, so
it is a total function `String → Validation`.  Notification side
effects (`showMpremoteInstallationNotification`) change none of the
state the claims are about and are dropped. -/

/-- Result record of `validatePythonPath` (pythonInterpreter.ts lines
198–218). -/
structure Validation where
  valid : Bool
  missingMpremote : Bool
deriving Repr, DecidableEq

/-- The static cache fields of `PythonInterpreterManager`
(pythonInterpreter.ts lines 12–13). -/
structure PyCache where
  cachedInterpreter : Option String
  lastCacheTime : Nat
deriving Repr, DecidableEq

/-- `CACHE_DURATION` (pythonInterpreter.ts line 14). -/
def CACHE_DURATION : Nat := 30000

/-- `cacheResult` (pythonInterpreter.ts lines 308–311). -/
def cacheResult (now : Nat) (p : String) : PyCache :=
  { cachedInterpreter := some p, lastCacheTime := now }

/-- `path.join(base, parts...)` as used for the Windows fallback
interpreter locations (pythonInterpreter.ts lines 177–180): an empty
`LOCALAPPDATA` contributes nothing, otherwise it is prepended with a
separator. -/
def joinPath (base rest : String) : String :=
  if base = "" then rest else base ++ "\\" ++ rest

/-- One Windows per-version interpreter location,
`path.join(LOCALAPPDATA || '', "Programs", "Python", ver, "python.exe")`. -/
def winPyPath (localAppData ver : String) : String :=
  joinPath localAppData ("Programs\\Python\\" ++ ver ++ "\\python.exe")

/-- `getFallbackPythonPaths` (pythonInterpreter.ts lines 168–193). -/
def getFallbackPythonPaths (isWindows : Bool) (localAppData : String) :
    List String :=
  if isWindows then
    ["python", "python3", "py -3", "py",
     winPyPath localAppData "Python39",
     winPyPath localAppData "Python310",
     winPyPath localAppData "Python311",
     winPyPath localAppData "Python312"]
  else
    ["python3", "python", "/usr/bin/python3", "/usr/local/bin/python3",
     "/opt/homebrew/bin/python3", "/usr/bin/python", "/usr/local/bin/python"]

/-- One `try { pythonPath = await method(); if (pythonPath) { ... if
valid: cache and return ... } } catch { ... }` block of `getPythonPath`
(pythonInterpreter.ts lines 32–47 and 49–64): the method's path is
returned iff the method neither threw nor returned `null`/empty, and
the path validates. -/
def tryMethod (m : Except String (Option String))
    (validate : String → Validation) : Option String :=
  match m with
  | Except.error _ => none
  | Except.ok none => none
  | Except.ok (some p) =>
    if p ≠ "" ∧ (validate p).valid then some p else none

/-- `PythonInterpreterManager.getPythonPath` (pythonInterpreter.ts
lines 23–88): serve a fresh, truthy cache entry; otherwise try the
Python extension API, then the VS Code configuration, then the first
platform fallback that validates; otherwise return and cache the last
resort `"python3"`.  Returns the resolved path and the cache state
after the call. -/
def getPythonPath (now : Nat) (c : PyCache)
    (api cfgM : Except String (Option String))
    (isWindows : Bool) (localAppData : String)
    (validate : String → Validation) : String × PyCache :=
  if c.cachedInterpreter.getD "" ≠ "" ∧ now - c.lastCacheTime < CACHE_DURATION
  then
    (c.cachedInterpreter.getD "", c)
  else
    match tryMethod api validate with
    | some p => (p, cacheResult now p)
    | none =>
      match tryMethod cfgM validate with
      | some p => (p, cacheResult now p)
      | none =>
        match (getFallbackPythonPaths isWindows localAppData).find?
            (fun f => (validate f).valid) with
        | some f => (f, cacheResult now f)
        | none => ("python3", cacheResult now "python3")

/-! ## The spec's invocation contract (for comparison with the code)

Spec §6 states the tool invocation contract
`toolpath <subcommand> --port <device> --baudrate <rate> [--path <path>]`
with both the port identifier and the baud rate listed among the
configuration inputs.  `specInvocationArgs` renders that contract for a
given port and rate, to be compared with the argument vector the code
actually builds. -/

/-- Argument vector of the spec's invocation contract, for a given
subcommand script, device, baud rate and path. -/
def specInvocationArgs (script device rate pth : String) : List String :=
  [script, "--port", device, "--baudrate", rate, "--path", pth]

/-! ## Concrete environment instances used by witnesses -/

/-- A subprocess executor whose every invocation exits cleanly with
empty output. -/
def runOk : ExecCall → ExecResult :=
  fun _ => { err := none, stdout := "", stderr := "" }

/-- A minimal `JSON.parse` model: parses the literal `"[]"` to the
empty array and treats everything else as a parse exception. -/
def parseEmptyArr : String → Option Js :=
  fun sIn => if sIn = "[]" then some (Js.arr []) else none

/-! ## Helper lemmas -/

/-- Appending a non-empty string yields a non-empty string. -/
theorem append_ne_empty_right (a b : String) (h : b ≠ "") : a ++ b ≠ "" := by
  intro hab
  apply h
  apply String.ext
  have hd := congrArg String.data hab
  rw [String.data_append] at hd
  exact (List.append_eq_nil.mp hd).2

/-- `joinPath` with a non-empty second component is non-empty. -/
theorem joinPath_ne_empty (base rest : String) (h : rest ≠ "") :
    joinPath base rest ≠ "" := by
  unfold joinPath
  split
  · exact h
  · exact append_ne_empty_right _ _ h

/-- Every Windows per-version interpreter location is non-empty. -/
theorem winPyPath_ne_empty (localAppData ver : String) :
    winPyPath localAppData ver ≠ "" := by
  unfold winPyPath
  apply joinPath_ne_empty
  exact append_ne_empty_right _ _ (by decide)

/-- Every fallback interpreter candidate is a non-empty string. -/
theorem mem_fallback_ne_empty (isWindows : Bool) (localAppData : String)
    (f : String) (h : f ∈ getFallbackPythonPaths isWindows localAppData) :
    f ≠ "" := by
  cases isWindows with
  | false =>
    simp only [getFallbackPythonPaths, Bool.false_eq_true, if_false,
      List.mem_cons, List.not_mem_nil, or_false] at h
    rcases h with h | h | h | h | h | h | h <;> subst h <;> decide
  | true =>
    simp only [getFallbackPythonPaths, if_true, List.mem_cons,
      List.not_mem_nil, or_false] at h
    rcases h with h | h | h | h | h | h | h | h <;> subst h
    · decide
    · decide
    · decide
    · decide
    · exact winPyPath_ne_empty _ _
    · exact winPyPath_ne_empty _ _
    · exact winPyPath_ne_empty _ _
    · exact winPyPath_ne_empty _ _

/-- A path returned by one of the two discovery methods is non-empty
(the JavaScript truthiness guard `if (pythonPath)`). -/
theorem tryMethod_ne_empty (m : Except String (Option String))
    (v : String → Validation) (p : String) (h : tryMethod m v = some p) :
    p ≠ "" := by
  cases m with
  | error e => simp [tryMethod] at h
  | ok o =>
    cases o with
    | none => simp [tryMethod] at h
    | some q =>
      simp only [tryMethod] at h
      split at h
      · next hq => cases h; exact hq.1
      · cases h

/-- When every candidate fails validation, neither discovery method
yields a path. -/
theorem tryMethod_eq_none_of_invalid (m : Except String (Option String))
    (v : String → Validation) (hv : ∀ q, (v q).valid = false) :
    tryMethod m v = none := by
  cases m with
  | error e => rfl
  | ok o =>
    cases o with
    | none => rfl
    | some q => simp [tryMethod, hv q]

/-! ## Claim theorems -/

/-- C1: a poll tick that fires while the busy flag is set (an operation
runs under `suspendDuring`) returns without spawning a reader
subprocess (`none`), leaves no pending timer behind (no backlog of
polls), keeps busy/running unchanged, and when the suspending operation
ends (`suspendFinally` with `wasRunning = true`, the monitor having
been running) polling is rescheduled: a pending timer exists again and
the busy flag is clear. -/
theorem tick_skipped_while_busy (cfg : Option String) (s : MonitorState)
    (hbusy : s.busy = true) (hrun : s.running = true) :
    (SerialMonitor.tick cfg s).2 = none ∧
    (SerialMonitor.tick cfg s).1 = { s with timer := false } ∧
    (SerialMonitor.suspendFinally true ((SerialMonitor.tick cfg s).1)).timer = true ∧
    (SerialMonitor.suspendFinally true ((SerialMonitor.tick cfg s).1)).busy = false := by
  obtain ⟨t, b, r, o⟩ := s
  cases hbusy
  cases hrun
  simp [SerialMonitor.tick, SerialMonitor.suspendFinally, SerialMonitor.schedule]

/-- C1 witness at a concrete busy, running state. -/
theorem tick_skipped_while_busy_witness :
    (SerialMonitor.tick (some "COM3") ⟨true, true, true, true⟩).2 = none ∧
    (SerialMonitor.tick (some "COM3") ⟨true, true, true, true⟩).1 =
      { (⟨true, true, true, true⟩ : MonitorState) with timer := false } ∧
    (SerialMonitor.suspendFinally true
      ((SerialMonitor.tick (some "COM3") ⟨true, true, true, true⟩).1)).timer = true ∧
    (SerialMonitor.suspendFinally true
      ((SerialMonitor.tick (some "COM3") ⟨true, true, true, true⟩).1)).busy = false :=
  tick_skipped_while_busy (some "COM3") ⟨true, true, true, true⟩ rfl rfl

/-- C4: after `suspendDuring fn` completes — with `fn` an operation
that does not itself mutate the monitor state, whether it returns
(`Except.ok`) or throws (`Except.error`) — the running flag is what it
was before, the busy flag is clear, and a pending poll timer exists if
and only if the monitor was running before the suspension began
(idempotent resume; a stopped monitor, which has no pending timer,
stays stopped). -/
theorem suspendDuring_resume_iff_was_running (α : Type) (s : MonitorState)
    (fn : MonitorState → MonitorState × Except String α)
    (hfn : ∀ t, (fn t).1 = t)
    (hstopped : s.running = false → s.timer = false) :
    ((SerialMonitor.suspendDuring s fn).1).running = s.running ∧
    ((SerialMonitor.suspendDuring s fn).1).busy = false ∧
    (((SerialMonitor.suspendDuring s fn).1).timer = true ↔ s.running = true) := by
  obtain ⟨t, b, r, o⟩ := s
  have h1 := hfn ⟨t, true, r, o⟩
  cases r with
  | true =>
    simp [SerialMonitor.suspendDuring, SerialMonitor.suspendFinally,
      SerialMonitor.schedule, h1]
  | false =>
    have ht : t = false := hstopped rfl
    subst ht
    simp [SerialMonitor.suspendDuring, SerialMonitor.suspendFinally,
      SerialMonitor.schedule, h1]

/-- C4 witness: a monitor-preserving successful operation on a running
monitor with a pending timer. -/
theorem suspendDuring_resume_iff_was_running_witness :
    ((SerialMonitor.suspendDuring ⟨true, false, true, true⟩
        (fun t => (t, (Except.ok () : Except String Unit)))).1).running =
      (⟨true, false, true, true⟩ : MonitorState).running ∧
    ((SerialMonitor.suspendDuring ⟨true, false, true, true⟩
        (fun t => (t, (Except.ok () : Except String Unit)))).1).busy = false ∧
    (((SerialMonitor.suspendDuring ⟨true, false, true, true⟩
        (fun t => (t, (Except.ok () : Except String Unit)))).1).timer = true ↔
      (⟨true, false, true, true⟩ : MonitorState).running = true) :=
  suspendDuring_resume_iff_was_running Unit ⟨true, false, true, true⟩
    (fun t => (t, Except.ok ())) (fun _ => rfl) (fun h => nomatch h)

/-- C9: when the wrapped operation throws (`Except.error`), the
`finally` block of `suspendDuring` still clears the busy flag, the
error propagates to the caller, and — the monitor having been running
before the suspension — polling is rescheduled (a pending timer exists
again), so a failed operation never leaves the monitor suspended. -/
theorem suspendDuring_restores_on_throw (s : MonitorState) (e : String)
    (hrun : s.running = true) :
    ((SerialMonitor.suspendDuring s
        (fun t => (t, (Except.error e : Except String Unit)))).1).busy = false ∧
    (SerialMonitor.suspendDuring s
        (fun t => (t, (Except.error e : Except String Unit)))).2 =
      Except.error e ∧
    ((SerialMonitor.suspendDuring s
        (fun t => (t, (Except.error e : Except String Unit)))).1).timer = true := by
  obtain ⟨t, b, r, o⟩ := s
  cases hrun
  simp [SerialMonitor.suspendDuring, SerialMonitor.suspendFinally,
    SerialMonitor.schedule]

/-- C9 witness at a concrete running state and a concrete exception. -/
theorem suspendDuring_restores_on_throw_witness :
    ((SerialMonitor.suspendDuring ⟨false, false, true, true⟩
        (fun t => (t, (Except.error "boom" : Except String Unit)))).1).busy = false ∧
    (SerialMonitor.suspendDuring ⟨false, false, true, true⟩
        (fun t => (t, (Except.error "boom" : Except String Unit)))).2 =
      Except.error "boom" ∧
    ((SerialMonitor.suspendDuring ⟨false, false, true, true⟩
        (fun t => (t, (Except.error "boom" : Except String Unit)))).1).timer = true :=
  suspendDuring_restores_on_throw ⟨false, false, true, true⟩ "boom" rfl

/-- C10: `start` on an already-running monitor changes nothing (the
whole state, pending timer included, is returned untouched), and after
`stop` the monitor reports not running and has no pending timer. -/
theorem start_idempotent_stop_clears (s u : MonitorState)
    (hrun : s.running = true) :
    SerialMonitor.start s = s ∧
    SerialMonitor.isRunning (SerialMonitor.stop u) = false ∧
    (SerialMonitor.stop u).timer = false := by
  refine ⟨?_, rfl, rfl⟩
  simp [SerialMonitor.start, hrun]

/-- C10 witness: a running monitor with a pending timer, stopped from
an arbitrary concrete state. -/
theorem start_idempotent_stop_clears_witness :
    SerialMonitor.start ⟨true, false, true, true⟩ = ⟨true, false, true, true⟩ ∧
    SerialMonitor.isRunning (SerialMonitor.stop ⟨true, true, true, true⟩) = false ∧
    (SerialMonitor.stop ⟨true, true, true, true⟩).timer = false :=
  start_idempotent_stop_clears ⟨true, false, true, true⟩ ⟨true, true, true, true⟩ rfl

/-- C3: when no fixed serial port is configured — the
`microPythonWorkBench.connect` value unset, empty, or `"auto"` — the
listing operation settles immediately as the failure `"No fixed serial
port selected"` with an empty subprocess-invocation trace: nothing was
spawned and nothing is retried. -/
theorem listDir_no_port_fails_immediately (cfg : Option String)
    (pythonPath script dirPath : String) (run : ExecCall → ExecResult)
    (parse : String → Option Js)
    (h : cfg = none ∨ cfg = some "" ∨ cfg = some "auto") :
    listDirPyRaw cfg pythonPath script dirPath run parse =
      (Except.error "No fixed serial port selected", []) := by
  rcases h with h | h | h <;> subst h <;> rfl

/-- C3 witness at the empty configured value. -/
theorem listDir_no_port_fails_immediately_witness :
    listDirPyRaw (some "") "python3" "thonny_list_files.py" "/" runOk parseEmptyArr =
      (Except.error "No fixed serial port selected", []) :=
  listDir_no_port_fails_immediately (some "") "python3" "thonny_list_files.py" "/"
    runOk parseEmptyArr (Or.inr (Or.inl rfl))

/-- C2: with a port configured, the listing settles exactly as its
subprocess callback dictates, and the callback satisfies: a successful
exit with empty standard output resolves to the empty list (`stdout ||
"[]"` parses as the empty array); a successful exit with non-JSON
standard output (parse exception) or with JSON that is not an array
resolves to the empty list; a subprocess error with non-empty standard
error rejects with that standard-error text verbatim; a subprocess
error with empty standard error rejects with the underlying error
message. -/
theorem listDir_output_parsing (cfg : Option String)
    (pythonPath script dirPath : String) (run : ExecCall → ExecResult)
    (parse : String → Option Js)
    (hc : connectValue cfg ≠ "auto")
    (hparse : parse "[]" = some (Js.arr [])) :
    ((listDirPyRaw cfg pythonPath script dirPath run parse).1 =
      listDirCallback parse (run
        { file := pythonPath,
          args := listDirArgs script (stripSerialScheme (connectValue cfg)) dirPath,
          timeoutMs := 10000 })) ∧
    (∀ r : ExecResult, r.err = none → r.stdout = "" →
      listDirCallback parse r = Except.ok []) ∧
    (∀ r : ExecResult, r.err = none → r.stdout ≠ "" → parse r.stdout = none →
      listDirCallback parse r = Except.ok []) ∧
    (∀ r : ExecResult, r.err = none → r.stdout ≠ "" →
      parse r.stdout = some Js.other → listDirCallback parse r = Except.ok []) ∧
    (∀ r : ExecResult, ∀ msg, r.err = some msg → r.stderr ≠ "" →
      listDirCallback parse r = Except.error r.stderr) ∧
    (∀ r : ExecResult, ∀ msg, r.err = some msg → r.stderr = "" →
      listDirCallback parse r = Except.error msg) := by
  refine ⟨?_, ?_, ?_, ?_, ?_, ?_⟩
  · simp [listDirPyRaw, hc]
  · intro r he hs
    simp [listDirCallback, he, hs, hparse]
  · intro r he hs hp
    simp [listDirCallback, he, hs, hp]
  · intro r he hs hp
    simp [listDirCallback, he, hs, hp]
  · intro r msg he hs
    simp [listDirCallback, he, hs]
  · intro r msg he hs
    simp [listDirCallback, he, hs]

/-- C2 witness: a configured port, the concrete `JSON.parse` model,
and a clean-exit executor with empty output. -/
theorem listDir_output_parsing_witness :
    ((listDirPyRaw (some "COM3") "python3" "thonny_list_files.py" "/" runOk
        parseEmptyArr).1 =
      listDirCallback parseEmptyArr (runOk
        { file := "python3",
          args := listDirArgs "thonny_list_files.py"
            (stripSerialScheme (connectValue (some "COM3"))) "/",
          timeoutMs := 10000 })) ∧
    (∀ r : ExecResult, r.err = none → r.stdout = "" →
      listDirCallback parseEmptyArr r = Except.ok []) ∧
    (∀ r : ExecResult, r.err = none → r.stdout ≠ "" →
      parseEmptyArr r.stdout = none →
      listDirCallback parseEmptyArr r = Except.ok []) ∧
    (∀ r : ExecResult, r.err = none → r.stdout ≠ "" →
      parseEmptyArr r.stdout = some Js.other →
      listDirCallback parseEmptyArr r = Except.ok []) ∧
    (∀ r : ExecResult, ∀ msg, r.err = some msg → r.stderr ≠ "" →
      listDirCallback parseEmptyArr r = Except.error r.stderr) ∧
    (∀ r : ExecResult, ∀ msg, r.err = some msg → r.stderr = "" →
      listDirCallback parseEmptyArr r = Except.error msg) :=
  listDir_output_parsing (some "COM3") "python3" "thonny_list_files.py" "/" runOk
    parseEmptyArr (by decide) rfl

/-- C5: the serial port identifier is a per-call input — each
`listDirPyRaw` invocation spawns its subprocess with the device derived
from the configuration value read at that call, and each monitor tick
(running, not busy) spawns its reader with the device derived from the
configuration value read at that tick — so two successive operations
with different configured ports each use their own port. -/
theorem port_read_per_operation (c1 c2 : Option String)
    (pythonPath script dirPath : String) (run1 run2 : ExecCall → ExecResult)
    (parse : String → Option Js) (st : MonitorState)
    (h1 : connectValue c1 ≠ "auto") (h2 : connectValue c2 ≠ "auto")
    (hrun : st.running = true) (hbusy : st.busy = false) :
    (listDirPyRaw c1 pythonPath script dirPath run1 parse).2 =
      [{ file := pythonPath,
         args := listDirArgs script (stripSerialScheme (connectValue c1)) dirPath,
         timeoutMs := 10000 }] ∧
    (listDirPyRaw c2 pythonPath script dirPath run2 parse).2 =
      [{ file := pythonPath,
         args := listDirArgs script (stripSerialScheme (connectValue c2)) dirPath,
         timeoutMs := 10000 }] ∧
    (SerialMonitor.tick c1 st).2 = some (SerialMonitor.tickSpawnArgs c1) ∧
    (SerialMonitor.tick c2 st).2 = some (SerialMonitor.tickSpawnArgs c2) := by
  obtain ⟨t, b, r, o⟩ := st
  cases hrun
  cases hbusy
  refine ⟨?_, ?_, ?_, ?_⟩
  · simp [listDirPyRaw, h1]
  · simp [listDirPyRaw, h2]
  · simp [SerialMonitor.tick]
  · simp [SerialMonitor.tick]

/-- C5 witness: two different concrete ports, one for each successive
operation, and a running non-busy monitor state. -/
theorem port_read_per_operation_witness :
    (listDirPyRaw (some "COM3") "python3" "thonny_list_files.py" "/" runOk
        parseEmptyArr).2 =
      [{ file := "python3",
         args := listDirArgs "thonny_list_files.py"
           (stripSerialScheme (connectValue (some "COM3"))) "/",
         timeoutMs := 10000 }] ∧
    (listDirPyRaw (some "COM4") "python3" "thonny_list_files.py" "/" runOk
        parseEmptyArr).2 =
      [{ file := "python3",
         args := listDirArgs "thonny_list_files.py"
           (stripSerialScheme (connectValue (some "COM4"))) "/",
         timeoutMs := 10000 }] ∧
    (SerialMonitor.tick (some "COM3") ⟨false, false, true, true⟩).2 =
      some (SerialMonitor.tickSpawnArgs (some "COM3")) ∧
    (SerialMonitor.tick (some "COM4") ⟨false, false, true, true⟩).2 =
      some (SerialMonitor.tickSpawnArgs (some "COM4")) :=
  port_read_per_operation (some "COM3") (some "COM4") "python3"
    "thonny_list_files.py" "/" runOk runOk parseEmptyArr
    ⟨false, false, true, true⟩ (by decide) (by decide) rfl rfl

/-- C6 fails as stated: the listing subprocess is always invoked with
the literal baud rate `"115200"`; the baud rate is not a configuration
input.  At the concrete input below the invocation matches the spec's
contract shape only with rate 115200, and differs from the contract
instantiated with any other configured rate, 9600 here. -/
theorem invocation_baud_is_hardcoded :
    (listDirPyRaw (some "COM3") "python3" "thonny_list_files.py" "/" runOk
        parseEmptyArr).2.map ExecCall.args =
      [specInvocationArgs "thonny_list_files.py" "COM3" "115200" "/"] ∧
    (listDirPyRaw (some "COM3") "python3" "thonny_list_files.py" "/" runOk
        parseEmptyArr).2.map ExecCall.args ≠
      [specInvocationArgs "thonny_list_files.py" "COM3" "9600" "/"] := by
  constructor
  · rfl
  · decide

/-- C6 amended: every listing invocation follows the contract
`toolpath <subcommand> --port <device> --baudrate <rate> --path <path>`
where the device is derived from the configuration value read at the
call and the rate is the fixed literal `"115200"` (not a configuration
input), and the invocation is bounded by a 10000 ms timeout. -/
theorem invocation_contract_fixed_baud (cfg : Option String)
    (pythonPath script dirPath : String) (run : ExecCall → ExecResult)
    (parse : String → Option Js) (hc : connectValue cfg ≠ "auto") :
    (listDirPyRaw cfg pythonPath script dirPath run parse).2 =
      [{ file := pythonPath,
         args := specInvocationArgs script (stripSerialScheme (connectValue cfg))
           "115200" dirPath,
         timeoutMs := 10000 }] ∧
    ∀ call ∈ (listDirPyRaw cfg pythonPath script dirPath run parse).2,
      call.timeoutMs = 10000 := by
  constructor
  · simp [listDirPyRaw, hc, listDirArgs, specInvocationArgs]
  · intro call hcall
    simp [listDirPyRaw, hc] at hcall
    subst hcall
    rfl

/-- C6 amended witness at a concrete configured port. -/
theorem invocation_contract_fixed_baud_witness :
    (listDirPyRaw (some "COM3") "python3" "thonny_list_files.py" "/" runOk
        parseEmptyArr).2 =
      [{ file := "python3",
         args := specInvocationArgs "thonny_list_files.py"
           (stripSerialScheme (connectValue (some "COM3"))) "115200" "/",
         timeoutMs := 10000 }] ∧
    ∀ call ∈ (listDirPyRaw (some "COM3") "python3" "thonny_list_files.py" "/"
        runOk parseEmptyArr).2, call.timeoutMs = 10000 :=
  invocation_contract_fixed_baud (some "COM3") "python3" "thonny_list_files.py"
    "/" runOk parseEmptyArr (by decide)

/-- C7: the auto-sync label computed by one `getActionNodes` rendering
is a function of the `.mpy-workbench/config.json` state read at that
rendering (the file state is a per-call input, nothing is cached): a
boolean `autoSyncOnSave` field decides the label directly; an absent
record, a record without the field, or a record with a non-boolean
field all fall back to the `microPythonWorkBench.autoSyncOnSave` VS
Code setting read with default `false`; and with that setting also
unset the flag is `false`. -/
theorem autoSync_flag_fallback (b : Bool) (setting : Option Bool) :
    autoSyncLabel (some (ConfigFileState.record (FieldVal.boolVal b))) setting =
      labelFor b ∧
    autoSyncLabel (some ConfigFileState.absentFile) setting =
      labelFor (setting.getD false) ∧
    autoSyncLabel (some (ConfigFileState.record FieldVal.missing)) setting =
      labelFor (setting.getD false) ∧
    autoSyncLabel (some (ConfigFileState.record FieldVal.nonBool)) setting =
      labelFor (setting.getD false) ∧
    autoSyncLabel (some ConfigFileState.absentFile) none = labelFor false :=
  ⟨rfl, rfl, rfl, rfl, rfl⟩

/-- C8: `getPythonPath` is total — every call resolves to a non-empty
interpreter string — and when the cache is empty and every candidate
path (extension API, configuration, every platform fallback) fails
validation, the call returns the last-resort `"python3"` and caches
it. -/
theorem getPythonPath_total_last_resort :
    (∀ (now : Nat) (c : PyCache) (api cfgM : Except String (Option String))
        (isWindows : Bool) (localAppData : String)
        (validate : String → Validation),
      (getPythonPath now c api cfgM isWindows localAppData validate).1 ≠ "") ∧
    (∀ (now : Nat) (c : PyCache) (api cfgM : Except String (Option String))
        (isWindows : Bool) (localAppData : String)
        (validate : String → Validation),
      c.cachedInterpreter = none →
      (∀ q, (validate q).valid = false) →
      getPythonPath now c api cfgM isWindows localAppData validate =
        ("python3", cacheResult now "python3")) := by
  constructor
  · intro now c api cfgM iw lad v
    by_cases hcache : c.cachedInterpreter.getD "" ≠ "" ∧
        now - c.lastCacheTime < CACHE_DURATION
    · simp only [getPythonPath, if_pos hcache]
      exact hcache.1
    · simp only [getPythonPath, if_neg hcache]
      cases h1 : tryMethod api v with
      | some p =>
        simpa using tryMethod_ne_empty api v p h1
      | none =>
        cases h2 : tryMethod cfgM v with
        | some p =>
          simpa using tryMethod_ne_empty cfgM v p h2
        | none =>
          cases h3 : (getFallbackPythonPaths iw lad).find?
              (fun f => (v f).valid) with
          | some f =>
            simpa using
              mem_fallback_ne_empty iw lad f (List.mem_of_find?_eq_some h3)
          | none => simp
  · intro now c api cfgM iw lad v hc hv
    have h1 := tryMethod_eq_none_of_invalid api v hv
    have h2 := tryMethod_eq_none_of_invalid cfgM v hv
    have h3 : (getFallbackPythonPaths iw lad).find?
        (fun f => (v f).valid) = none :=
      List.find?_eq_none.mpr (fun x _ => by simp [hv x])
    simp [getPythonPath, hc, h1, h2, h3]

/-- C8 witness: an empty cache, both discovery methods returning
`null`, and a validator rejecting everything force the last resort. -/
theorem getPythonPath_total_last_resort_witness :
    (getPythonPath 0 ⟨none, 0⟩ (Except.ok none) (Except.ok none) false ""
        (fun _ => ⟨false, false⟩)).1 ≠ "" ∧
    getPythonPath 0 ⟨none, 0⟩ (Except.ok none) (Except.ok none) false ""
        (fun _ => ⟨false, false⟩) =
      ("python3", cacheResult 0 "python3") :=
  ⟨getPythonPath_total_last_resort.1 0 ⟨none, 0⟩ (Except.ok none)
      (Except.ok none) false "" (fun _ => ⟨false, false⟩),
    getPythonPath_total_last_resort.2 0 ⟨none, 0⟩ (Except.ok none)
      (Except.ok none) false "" (fun _ => ⟨false, false⟩) rfl (fun _ => rfl)⟩

end MpyWorkbench
